import Mathlib

/-!
# Verification of the aestival per-node layout configuration engine

Shallow embedding of the layout-configuration subsystem:

* `src/lib/stores/layoutPresets.ts` — layout preset catalog (save / import /
  export / quota cleanup / default-preset resolution).
* `src/lib/stores/nodeLayoutStore.ts` — persisted per-node configuration
  (`NodeConfig`), its localStorage persistence, and its import/export surface.
* The tab-group engine (`createTabGroup`, `dissolveTabGroup`,
  `switchTabGroupActive`, `removeBlockFromTabGroup`, `computeEffectiveItems`)
  whose implementation file is not part of the sources at hand (only its
  callers are); those operations are modelled from the specification and are
  marked as such in their doc comments.

JavaScript numbers that the code uses (timestamps, grid coordinates, tab
indices) are integers in every code path modelled here, so they are embedded
as `Int`.  `JSON.stringify`/`JSON.parse` are modelled at the level of JSON
values: a successfully parsed string is represented by the `JsonVal` it
denotes, a parse failure by `none`, and `stringify` followed by `parse` is the
identity on JSON values.
-/

namespace Aestival

/-- A JSON value, as produced by `JSON.parse`.  Object fields keep their
insertion order, matching JavaScript property order. -/
inductive JsonVal where
  | null : JsonVal
  | bool (b : Bool) : JsonVal
  | num (n : Int) : JsonVal
  | str (s : String) : JsonVal
  | arr (elems : List JsonVal) : JsonVal
  | obj (fields : List (String × JsonVal)) : JsonVal
deriving Repr

mutual

def JsonVal.beq : JsonVal → JsonVal → Bool
  | .null, .null => true
  | .bool a, .bool b => a == b
  | .num a, .num b => a == b
  | .str a, .str b => a == b
  | .arr a, .arr b => JsonVal.beqList a b
  | .obj a, .obj b => JsonVal.beqFields a b
  | _, _ => false

def JsonVal.beqList : List JsonVal → List JsonVal → Bool
  | [], [] => true
  | a :: as, b :: bs => JsonVal.beq a b && JsonVal.beqList as bs
  | _, _ => false

def JsonVal.beqFields : List (String × JsonVal) → List (String × JsonVal) → Bool
  | [], [] => true
  | (k, v) :: as, (k', v') :: bs =>
      k == k' && JsonVal.beq v v' && JsonVal.beqFields as bs
  | _, _ => false

end

mutual

theorem JsonVal.beq_iff : ∀ a b : JsonVal, JsonVal.beq a b = true ↔ a = b
  | .null, .null => by simp [JsonVal.beq]
  | .null, .bool _ | .null, .num _ | .null, .str _ | .null, .arr _ | .null, .obj _ => by
      simp [JsonVal.beq]
  | .bool _, .null | .bool _, .num _ | .bool _, .str _ | .bool _, .arr _ | .bool _, .obj _ => by
      simp [JsonVal.beq]
  | .bool a, .bool b => by simp [JsonVal.beq]
  | .num _, .null | .num _, .bool _ | .num _, .str _ | .num _, .arr _ | .num _, .obj _ => by
      simp [JsonVal.beq]
  | .num a, .num b => by simp [JsonVal.beq]
  | .str _, .null | .str _, .bool _ | .str _, .num _ | .str _, .arr _ | .str _, .obj _ => by
      simp [JsonVal.beq]
  | .str a, .str b => by simp [JsonVal.beq]
  | .arr _, .null | .arr _, .bool _ | .arr _, .num _ | .arr _, .str _ | .arr _, .obj _ => by
      simp [JsonVal.beq]
  | .arr a, .arr b => by
      simpa [JsonVal.beq] using JsonVal.beqList_iff a b
  | .obj _, .null | .obj _, .bool _ | .obj _, .num _ | .obj _, .str _ | .obj _, .arr _ => by
      simp [JsonVal.beq]
  | .obj a, .obj b => by
      simpa [JsonVal.beq] using JsonVal.beqFields_iff a b

theorem JsonVal.beqList_iff : ∀ a b : List JsonVal, JsonVal.beqList a b = true ↔ a = b
  | [], [] => by simp [JsonVal.beqList]
  | [], _ :: _ => by simp [JsonVal.beqList]
  | _ :: _, [] => by simp [JsonVal.beqList]
  | a :: as, b :: bs => by
      simp [JsonVal.beqList, Bool.and_eq_true, JsonVal.beq_iff a b,
        JsonVal.beqList_iff as bs]

theorem JsonVal.beqFields_iff :
    ∀ a b : List (String × JsonVal), JsonVal.beqFields a b = true ↔ a = b
  | [], [] => by simp [JsonVal.beqFields]
  | [], _ :: _ => by simp [JsonVal.beqFields]
  | _ :: _, [] => by simp [JsonVal.beqFields]
  | (k, v) :: as, (k', v') :: bs => by
      simp [JsonVal.beqFields, Bool.and_eq_true, JsonVal.beq_iff v v',
        JsonVal.beqFields_iff as bs, Prod.ext_iff, and_assoc]

end

instance : DecidableEq JsonVal := fun a b =>
  decidable_of_iff (JsonVal.beq a b = true) (JsonVal.beq_iff a b)

/-- JavaScript truthiness of a JSON value (`!v` is `true` exactly when this is
`false`): `null`, `false`, `0` and `""` are falsy, everything else truthy. -/
def jsTruthy : JsonVal → Bool
  | .null => false
  | .bool b => b
  | .num n => n != 0
  | .str s => s ≠ ""
  | .arr _ => true
  | .obj _ => true

/-- Property read `v[key]`: `none` models JavaScript `undefined` (missing key
or a non-object receiver). -/
def objGet (v : JsonVal) (key : String) : Option JsonVal :=
  match v with
  | .obj fields => fields.lookup key
  | _ => none

/-- Truthiness of a property read, `!!v[key]`; `undefined` is falsy. -/
def truthyGet (v : JsonVal) (key : String) : Bool :=
  match objGet v key with
  | some w => jsTruthy w
  | none => false

/-- `Array.isArray(v[key])`. -/
def arrayGet (v : JsonVal) (key : String) : Bool :=
  match objGet v key with
  | some (.arr _) => true
  | _ => false

/-- `Map.set` / ordered-record update: replace the value of an existing key
in place, append a fresh key at the end (JavaScript `Map` and object property
semantics). -/
def setEntry {α : Type} (entries : List (String × α)) (key : String) (v : α) :
    List (String × α) :=
  match entries with
  | [] => [(key, v)]
  | (k, w) :: rest =>
      if k = key then (k, v) :: rest else (k, w) :: setEntry rest key v

/-- Property write `v[key] = val` on an object (used for the re-assigned
fields of an imported preset); non-objects are left unchanged, which matches
the call sites (the write is only reached after an object check passed). -/
def objSet (v : JsonVal) (key : String) (val : JsonVal) : JsonVal :=
  match v with
  | .obj fields => .obj (setEntry fields key val)
  | w => w

/-- The own enumerable fields contributed by `{ ...v }` spread.  Primitives
other than strings spread to nothing; the layout code never spreads a string,
so string index properties are not modelled. -/
def spreadFields : JsonVal → List (String × JsonVal)
  | .obj fields => fields
  | _ => []

mutual

/-- String interpolation `${v}` of a JSON value in a template literal. -/
def jsTemplateStr : JsonVal → String
  | .null => "null"
  | .bool true => "true"
  | .bool false => "false"
  | .num n => toString n
  | .str s => s
  | .arr elems => String.intercalate "," (jsTemplateStrList elems)
  | .obj _ => "[object Object]"

def jsTemplateStrList : List JsonVal → List String
  | [] => []
  | v :: rest => jsTemplateStr v :: jsTemplateStrList rest

end

theorem lookup_setEntry_self {α : Type} (entries : List (String × α)) (key : String) (v : α) :
    (setEntry entries key v).lookup key = some v := by
  induction entries with
  | nil => simp [setEntry]
  | cons hd tl ih =>
      obtain ⟨k, w⟩ := hd
      by_cases hk : k = key
      · subst hk; simp [setEntry, List.lookup]
      · simp only [setEntry, if_neg hk, List.lookup]
        have : (key == k) = false := by
          simpa [beq_iff_eq] using fun h => hk h.symm
        simp [this, ih]

theorem lookup_setEntry_ne {α : Type} (entries : List (String × α)) (key other : String)
    (v : α) (h : other ≠ key) :
    (setEntry entries key v).lookup other = entries.lookup other := by
  induction entries with
  | nil =>
      have : (other == key) = false := by simpa [beq_iff_eq] using h
      simp [setEntry, List.lookup, this]
  | cons hd tl ih =>
      obtain ⟨k, w⟩ := hd
      by_cases hk : k = key
      · subst hk
        simp only [setEntry, if_pos rfl, List.lookup]
        have : (other == k) = false := by simpa [beq_iff_eq] using h
        simp [this]
      · simp only [setEntry, if_neg hk, List.lookup]
        by_cases ho : other = k
        · subst ho; simp
        · have : (other == k) = false := by simpa [beq_iff_eq] using ho
          simp [this, ih]

/-!
## Data model of `NodeConfig` (from `src/lib/stores/nodeLayoutStore.ts` and the
`GridItem` interface of the dashboard-grid component)

Optional interface fields are embedded as `Option`; `JSON.stringify` omits
absent fields, which the encoders below mirror.
-/

/-- `GridItem` of the dashboard grid: `{ id, x, y, w, h, minW?, minH?, maxW?,
maxH?, noResize?, noMove? }`. -/
structure GridItem where
  id : String
  x : Int
  y : Int
  w : Int
  h : Int
  minW : Option Int := none
  minH : Option Int := none
  maxW : Option Int := none
  maxH : Option Int := none
  noResize : Option Bool := none
  noMove : Option Bool := none
deriving Repr, DecidableEq

/-- `TabBlockState` `{ activeTab: number, children: string[] }`. -/
structure TabBlockState where
  activeTab : Int
  children : List String
deriving Repr, DecidableEq

/-- `BlockSizeOverride` `{ minW?, minH?, maxW?, maxH?, colSpan? }`. -/
structure BlockSizeOverride where
  minW : Option Int := none
  minH : Option Int := none
  maxW : Option Int := none
  maxH : Option Int := none
  colSpan : Option Int := none
deriving Repr, DecidableEq

/-- `NormalBlockConfig` `{ id, order, visible, sizeOverride? }`. -/
structure NormalBlockConfig where
  id : String
  order : Int
  visible : Bool
  sizeOverride : Option BlockSizeOverride := none
deriving Repr, DecidableEq

/-- `NormalModeState` `{ blocks, tabStates, tabBlocks }`. -/
structure NormalModeState where
  blocks : List NormalBlockConfig
  tabStates : List (String × TabBlockState)
  tabBlocks : List String
deriving Repr, DecidableEq

/-- `FullscreenModeState` `{ gridLayout, tabStates, tabBlocks, sizeOverrides }`. -/
structure FullscreenModeState where
  gridLayout : List GridItem
  tabStates : List (String × TabBlockState)
  tabBlocks : List String
  sizeOverrides : List (String × BlockSizeOverride)
deriving Repr, DecidableEq

/-- `NodeConfig` `{ nodeType, fullscreen, normal, updatedAt }`. -/
structure NodeConfig where
  nodeType : String
  fullscreen : FullscreenModeState
  normal : NormalModeState
  updatedAt : Int
deriving Repr, DecidableEq

/-- Encode an optional numeric field (absent when `none`, as
`JSON.stringify` drops `undefined` properties). -/
def optNumField (key : String) : Option Int → List (String × JsonVal)
  | none => []
  | some n => [(key, .num n)]

/-- Encode an optional boolean field. -/
def optBoolField (key : String) : Option Bool → List (String × JsonVal)
  | none => []
  | some b => [(key, .bool b)]

def encodeGridItem (g : GridItem) : JsonVal :=
  .obj ([("id", .str g.id), ("x", .num g.x), ("y", .num g.y),
         ("w", .num g.w), ("h", .num g.h)]
    ++ optNumField "minW" g.minW ++ optNumField "minH" g.minH
    ++ optNumField "maxW" g.maxW ++ optNumField "maxH" g.maxH
    ++ optBoolField "noResize" g.noResize ++ optBoolField "noMove" g.noMove)

def encodeTabBlockState (t : TabBlockState) : JsonVal :=
  .obj [("activeTab", .num t.activeTab),
        ("children", .arr (t.children.map JsonVal.str))]

def encodeBlockSizeOverride (o : BlockSizeOverride) : JsonVal :=
  .obj (optNumField "minW" o.minW ++ optNumField "minH" o.minH
    ++ optNumField "maxW" o.maxW ++ optNumField "maxH" o.maxH
    ++ optNumField "colSpan" o.colSpan)

def encodeNormalBlockConfig (b : NormalBlockConfig) : JsonVal :=
  .obj ([("id", .str b.id), ("order", .num b.order), ("visible", .bool b.visible)]
    ++ (match b.sizeOverride with
        | none => []
        | some o => [("sizeOverride", encodeBlockSizeOverride o)]))

def encodeNormalModeState (s : NormalModeState) : JsonVal :=
  .obj [("blocks", .arr (s.blocks.map encodeNormalBlockConfig)),
        ("tabStates", .obj (s.tabStates.map fun kv => (kv.1, encodeTabBlockState kv.2))),
        ("tabBlocks", .arr (s.tabBlocks.map JsonVal.str))]

def encodeFullscreenModeState (s : FullscreenModeState) : JsonVal :=
  .obj [("gridLayout", .arr (s.gridLayout.map encodeGridItem)),
        ("tabStates", .obj (s.tabStates.map fun kv => (kv.1, encodeTabBlockState kv.2))),
        ("tabBlocks", .arr (s.tabBlocks.map JsonVal.str)),
        ("sizeOverrides", .obj (s.sizeOverrides.map fun kv =>
          (kv.1, encodeBlockSizeOverride kv.2)))]

/-- JSON image of a `NodeConfig` under `JSON.stringify` (field order is the
declaration order of the TypeScript object literal). -/
def encodeNodeConfig (c : NodeConfig) : JsonVal :=
  .obj [("nodeType", .str c.nodeType),
        ("fullscreen", encodeFullscreenModeState c.fullscreen),
        ("normal", encodeNormalModeState c.normal),
        ("updatedAt", .num c.updatedAt)]

/-!
## Shape validity of a parsed `NodeConfig`

Structural check of a JSON value against the `NodeConfig` TypeScript
interface, used to state what a "valid NodeConfig shape" is.  (The code under
verification performs *no* such check; see `importNodeConfig`.)
-/

def isStrVal : JsonVal → Bool
  | .str _ => true
  | _ => false

/-- The optional key `key`, when present, satisfies `p`. -/
def optKeyIs (v : JsonVal) (key : String) (p : JsonVal → Bool) : Bool :=
  match objGet v key with
  | none => true
  | some w => p w

/-- The required key `key` is present and satisfies `p`. -/
def keyIs (v : JsonVal) (key : String) (p : JsonVal → Bool) : Bool :=
  match objGet v key with
  | some w => p w
  | none => false

def isNumVal : JsonVal → Bool
  | .num _ => true
  | _ => false

def isBoolVal : JsonVal → Bool
  | .bool _ => true
  | _ => false

def isArrOf (p : JsonVal → Bool) : JsonVal → Bool
  | .arr elems => elems.all p
  | _ => false

def isRecordOf (p : JsonVal → Bool) : JsonVal → Bool
  | .obj fields => fields.all fun kv => p kv.2
  | _ => false

def isGridItemShape (v : JsonVal) : Bool :=
  keyIs v "id" isStrVal && keyIs v "x" isNumVal && keyIs v "y" isNumVal
    && keyIs v "w" isNumVal && keyIs v "h" isNumVal
    && optKeyIs v "minW" isNumVal && optKeyIs v "minH" isNumVal
    && optKeyIs v "maxW" isNumVal && optKeyIs v "maxH" isNumVal
    && optKeyIs v "noResize" isBoolVal && optKeyIs v "noMove" isBoolVal

def isTabBlockStateShape (v : JsonVal) : Bool :=
  keyIs v "activeTab" isNumVal && keyIs v "children" (isArrOf isStrVal)

def isBlockSizeOverrideShape (v : JsonVal) : Bool :=
  (match v with | .obj _ => true | _ => false)
    && optKeyIs v "minW" isNumVal && optKeyIs v "minH" isNumVal
    && optKeyIs v "maxW" isNumVal && optKeyIs v "maxH" isNumVal
    && optKeyIs v "colSpan" (fun w => w = .num 1 || w = .num 2)

def isNormalBlockConfigShape (v : JsonVal) : Bool :=
  keyIs v "id" isStrVal && keyIs v "order" isNumVal && keyIs v "visible" isBoolVal
    && optKeyIs v "sizeOverride" isBlockSizeOverrideShape

def isNormalModeStateShape (v : JsonVal) : Bool :=
  keyIs v "blocks" (isArrOf isNormalBlockConfigShape)
    && keyIs v "tabStates" (isRecordOf isTabBlockStateShape)
    && keyIs v "tabBlocks" (isArrOf isStrVal)

def isFullscreenModeStateShape (v : JsonVal) : Bool :=
  keyIs v "gridLayout" (isArrOf isGridItemShape)
    && keyIs v "tabStates" (isRecordOf isTabBlockStateShape)
    && keyIs v "tabBlocks" (isArrOf isStrVal)
    && keyIs v "sizeOverrides" (isRecordOf isBlockSizeOverrideShape)

/-- A JSON value has the `NodeConfig` shape. -/
def isNodeConfigShape (v : JsonVal) : Bool :=
  keyIs v "nodeType" isStrVal
    && keyIs v "fullscreen" isFullscreenModeStateShape
    && keyIs v "normal" isNormalModeStateShape
    && keyIs v "updatedAt" isNumVal

/-!
## Persistent node-config store (from `src/lib/stores/nodeLayoutStore.ts`)

The in-memory state is a `Map<string, NodeConfig>`; TypeScript types are
erased at runtime and `importNodeConfig` can insert any parsed JSON value via
its unchecked `as NodeConfig` cast, so entries are embedded as `JsonVal`.
-/

/-- The `nodeId → config` mapping (insertion-ordered, like a JS `Map`). -/
abbrev NodeConfigMap : Type := List (String × JsonVal)

/-- `setNodeConfig(nodeId, config)`:
`next.set(nodeId, { ...config, updatedAt: Date.now() })`. -/
def setNodeConfig (nodeId : String) (config : JsonVal) (now : Int)
    (m : NodeConfigMap) : NodeConfigMap :=
  setEntry m nodeId (.obj (setEntry (spreadFields config) "updatedAt" (.num now)))

/-- `exportNodeConfig(nodeId)`: `JSON.stringify(config, null, 2)` of the stored
config, or `null` when absent — modelled at the JSON-value level (`none` is
the `null` return). -/
def exportNodeConfig (nodeId : String) (m : NodeConfigMap) : Option JsonVal :=
  List.lookup nodeId m

/-- `importNodeConfig(nodeId, json)`: `JSON.parse` the string (`parsed = none`
models a parse failure, which the `catch` turns into `false`), then
`setNodeConfig` with the parsed value — there is no shape validation. -/
def importNodeConfig (nodeId : String) (parsed : Option JsonVal) (now : Int)
    (m : NodeConfigMap) : Bool × NodeConfigMap :=
  match parsed with
  | none => (false, m)
  | some v => (true, setNodeConfig nodeId v now m)

/-- `saveToStorage(configs)`: one `localStorage.setItem` attempt; any failure
is logged and swallowed, leaving the previously stored blob in place.
`canWrite` models whether `setItem` succeeds on the serialized mapping, and
the result is the blob held by storage after the call. -/
def saveToStorage (canWrite : NodeConfigMap → Bool) (configs : NodeConfigMap)
    (prevStored : Option NodeConfigMap) : Option NodeConfigMap :=
  if canWrite configs then some configs else prevStored

/-!
## Layout preset catalog (from `src/lib/stores/layoutPresets.ts`)
-/

/-- `PresetTabGroup` `{ id, blockIds, activeIndex }`. -/
structure PresetTabGroup where
  id : String
  blockIds : List String
  activeIndex : Int
deriving Repr, DecidableEq

/-- `LayoutPreset` `{ id, name, nodeType, layout, tabGroups?, createdAt,
isBuiltin? }`. -/
structure LayoutPreset where
  id : String
  name : String
  nodeType : String
  layout : List GridItem
  tabGroups : Option (List PresetTabGroup) := none
  createdAt : Int
  isBuiltin : Option Bool := none
deriving Repr, DecidableEq

/-- The `BUILTIN_PRESETS` constant. -/
def BUILTIN_PRESETS : List LayoutPreset := [
  { id := "trename-default", name := "默认布局", nodeType := "trename",
    layout := [
      { id := "path", x := 0, y := 0, w := 2, h := 2, minW := some 2, minH := some 2 },
      { id := "operation", x := 2, y := 0, w := 1, h := 2, minW := some 1, minH := some 2 },
      { id := "stats", x := 3, y := 0, w := 1, h := 2, minW := some 1, minH := some 2 },
      { id := "importExport", x := 0, y := 2, w := 2, h := 1, minW := some 2, minH := some 1 },
      { id := "tree", x := 0, y := 3, w := 3, h := 4, minW := some 2, minH := some 2 },
      { id := "log", x := 3, y := 2, w := 1, h := 5, minW := some 1, minH := some 2 }],
    createdAt := 0, isBuiltin := some true },
  { id := "trename-compact", name := "紧凑布局", nodeType := "trename",
    layout := [
      { id := "path", x := 0, y := 0, w := 2, h := 1, minW := some 2, minH := some 1 },
      { id := "operation", x := 2, y := 0, w := 1, h := 1, minW := some 1, minH := some 1 },
      { id := "stats", x := 3, y := 0, w := 1, h := 1, minW := some 1, minH := some 1 },
      { id := "importExport", x := 0, y := 1, w := 2, h := 1, minW := some 2, minH := some 1 },
      { id := "tree", x := 0, y := 2, w := 2, h := 3, minW := some 2, minH := some 2 },
      { id := "log", x := 2, y := 1, w := 2, h := 4, minW := some 1, minH := some 2 }],
    createdAt := 0, isBuiltin := some true },
  { id := "trename-tree-focus", name := "文件树优先", nodeType := "trename",
    layout := [
      { id := "tree", x := 0, y := 0, w := 3, h := 6, minW := some 2, minH := some 2 },
      { id := "path", x := 3, y := 0, w := 1, h := 2, minW := some 1, minH := some 2 },
      { id := "operation", x := 3, y := 2, w := 1, h := 2, minW := some 1, minH := some 2 },
      { id := "stats", x := 3, y := 4, w := 1, h := 2, minW := some 1, minH := some 2 },
      { id := "importExport", x := 0, y := 6, w := 2, h := 1, minW := some 2, minH := some 1 },
      { id := "log", x := 2, y := 6, w := 2, h := 1, minW := some 1, minH := some 1 }],
    createdAt := 0, isBuiltin := some true },
  { id := "repacku-default", name := "默认布局", nodeType := "repacku",
    layout := [
      { id := "path", x := 0, y := 0, w := 2, h := 3, minW := some 2, minH := some 2 },
      { id := "operation", x := 2, y := 0, w := 1, h := 2, minW := some 1, minH := some 2 },
      { id := "stats", x := 3, y := 0, w := 1, h := 2, minW := some 1, minH := some 2 },
      { id := "progress", x := 2, y := 2, w := 2, h := 1, minW := some 2, minH := some 1 },
      { id := "tree", x := 0, y := 3, w := 3, h := 4, minW := some 2, minH := some 2 },
      { id := "log", x := 3, y := 3, w := 1, h := 4, minW := some 1, minH := some 2 }],
    createdAt := 0, isBuiltin := some true },
  { id := "repacku-compact", name := "紧凑布局", nodeType := "repacku",
    layout := [
      { id := "path", x := 0, y := 0, w := 2, h := 2, minW := some 2, minH := some 2 },
      { id := "operation", x := 2, y := 0, w := 1, h := 2, minW := some 1, minH := some 1 },
      { id := "stats", x := 3, y := 0, w := 1, h := 2, minW := some 1, minH := some 1 },
      { id := "progress", x := 0, y := 2, w := 4, h := 1, minW := some 2, minH := some 1 },
      { id := "tree", x := 0, y := 3, w := 2, h := 3, minW := some 2, minH := some 2 },
      { id := "log", x := 2, y := 3, w := 2, h := 3, minW := some 1, minH := some 2 }],
    createdAt := 0, isBuiltin := some true },
  { id := "repacku-tree-focus", name := "文件树优先", nodeType := "repacku",
    layout := [
      { id := "tree", x := 0, y := 0, w := 3, h := 6, minW := some 2, minH := some 2 },
      { id := "path", x := 3, y := 0, w := 1, h := 2, minW := some 1, minH := some 2 },
      { id := "operation", x := 3, y := 2, w := 1, h := 2, minW := some 1, minH := some 2 },
      { id := "stats", x := 3, y := 4, w := 1, h := 2, minW := some 1, minH := some 2 },
      { id := "progress", x := 0, y := 6, w := 2, h := 1, minW := some 2, minH := some 1 },
      { id := "log", x := 2, y := 6, w := 2, h := 1, minW := some 1, minH := some 1 }]
    , createdAt := 0, isBuiltin := some true }]

/-- The sort order of `[...presets].sort((a, b) => b.createdAt - a.createdAt)`:
`a` may come before `b` when `b.createdAt - a.createdAt ≤ 0`.  JavaScript's
`Array.prototype.sort` is a stable sort for this comparator, embedded as a
stable insertion sort over this relation. -/
def newerFirst (a b : LayoutPreset) : Prop := b.createdAt ≤ a.createdAt

instance : DecidableRel newerFirst := fun a b =>
  inferInstanceAs (Decidable (b.createdAt ≤ a.createdAt))

instance : IsTotal LayoutPreset newerFirst :=
  ⟨fun a b => le_total b.createdAt a.createdAt⟩

instance : IsTrans LayoutPreset newerFirst :=
  ⟨fun _ _ _ hab hbc => le_trans hbc hab⟩

/-- `cleanupOldPresets(presets, maxCount)`: keep the input as-is when it fits,
otherwise sort by `createdAt` descending and keep the newest `maxCount`. -/
def cleanupOldPresets (presets : List LayoutPreset) (maxCount : Nat := 20) :
    List LayoutPreset :=
  if presets.length ≤ maxCount then presets
  else (List.insertionSort newerFirst presets).take maxCount

/-- `saveUserPresets(presets)`: write, and on a `QuotaExceededError` retry
with the newest 10, then the newest 5, then give up.  `canWrite` models
whether `localStorage.setItem` succeeds on the given list (a `false` is the
quota error path), and the result is the stored user-preset list after the
call (`prevStored` when every write fails). -/
def saveUserPresets (canWrite : List LayoutPreset → Bool)
    (presets : List LayoutPreset) (prevStored : Option (List LayoutPreset)) :
    Option (List LayoutPreset) :=
  if canWrite presets then some presets
  else
    let cleaned := cleanupOldPresets presets 10
    if canWrite cleaned then some cleaned
    else
      let minimal := cleanupOldPresets presets 5
      if canWrite minimal then some minimal
      else prevStored

/-- `getAllPresets(nodeType?)` over a given stored user-preset list:
`[...BUILTIN_PRESETS, ...userPresets]`, optionally filtered. -/
def getAllPresets (userPresets : List LayoutPreset) (nodeType : Option String) :
    List LayoutPreset :=
  let all := BUILTIN_PRESETS ++ userPresets
  match nodeType with
  | some t => all.filter fun p => p.nodeType = t
  | none => all

/-- The fresh id `${preset.nodeType}-imported-${Date.now()}` assigned by
`importPreset`. -/
def importedPresetId (v : JsonVal) (now : Int) : String :=
  jsTemplateStr ((objGet v "nodeType").getD .null) ++ "-imported-" ++ toString now

/-- `importPreset(json)`: parse (`parsed = none` is the parse failure caught
by the surrounding `try`), reject unless `name` and `nodeType` are truthy and
`layout` is an array, then overwrite `id`, `createdAt` and `isBuiltin` and
push onto the user-preset list.  The result is `none` for a rejected import,
or the accepted preset value together with the pushed list.  (The subsequent
`saveUserPresets` call persists the pushed list; quota handling is modelled
separately.)  Both `Date.now()` calls are modelled as the same instant `now`. -/
def importPreset (parsed : Option JsonVal) (now : Int)
    (userPresets : List JsonVal) : Option (JsonVal × List JsonVal) :=
  match parsed with
  | none => none
  | some v =>
      if truthyGet v "name" && truthyGet v "nodeType" && arrayGet v "layout" then
        let p := objSet (objSet (objSet v "id" (.str (importedPresetId v now)))
          "createdAt" (.num now)) "isBuiltin" (.bool false)
        some (p, userPresets ++ [p])
      else none

/-- A preset mode. -/
inductive PresetMode where
  | fullscreen
  | normal
deriving Repr, DecidableEq

/-- `DefaultPresetConfig` `{ fullscreen?: string, normal?: string }`. -/
structure DefaultPresetConfig where
  fullscreen : Option String := none
  normal : Option String := none
deriving Repr, DecidableEq

/-- JavaScript truthiness of an optional string field (`undefined` and `""`
are falsy). -/
def truthyStr : Option String → Bool
  | none => false
  | some s => s ≠ ""

/-- `getDefaultPresetId(nodeType, mode?)` over the loaded defaults mapping:
`config[mode] || null` when a mode is given, otherwise
`config.fullscreen || config.normal || null`. -/
def getDefaultPresetId (defaults : List (String × DefaultPresetConfig))
    (nodeType : String) (mode : Option PresetMode) : Option String :=
  match defaults.lookup nodeType with
  | none => none
  | some config =>
      match mode with
      | some m =>
          let v := match m with
            | .fullscreen => config.fullscreen
            | .normal => config.normal
          if truthyStr v then v else none
      | none =>
          if truthyStr config.fullscreen then config.fullscreen
          else if truthyStr config.normal then config.normal
          else none

/-!
## Tab-group engine

The implementation file of `createTabGroup` / `dissolveTabGroup` /
`switchTabGroupActive` / `removeBlockFromTabGroup` / `computeEffectiveItems`
(the current `nodeLayoutStore`) is not among the sources at hand — only its
callers and type imports are — so these operations are modelled from the
specification (§4.3), as noted on each definition.
-/

/-- `TabGroup` `{ id, blockIds, activeIndex }`. -/
structure TabGroup where
  id : String
  blockIds : List String
  activeIndex : Int
deriving Repr, DecidableEq

/-- The per-mode layout state the tab-group operations act on: the grid
layout together with the mode's tab groups. -/
structure EngineModeState where
  layout : List GridItem
  tabGroups : List TabGroup
deriving Repr, DecidableEq

/-- A fresh configuration: the mode's initial layout, with no tab groups. -/
def freshModeState (layout : List GridItem) : EngineModeState :=
  { layout := layout, tabGroups := [] }

/-- An effective render item: either a plain block or a tab group occupying
its grid rect. -/
inductive EffectiveItem where
  | tabGroup (gridItem : GridItem) (group : TabGroup)
  | block (gridItem : GridItem)
deriving Repr, DecidableEq

/-- Modelled from the spec: `computeEffectiveItems(layout, tabGroups)` — for
each `GridItem` in `layout`, in order, yield a tab-group item when its id
matches a `TabGroup.id`, and a block item otherwise. -/
def computeEffectiveItems (layout : List GridItem) (tabGroups : List TabGroup) :
    List EffectiveItem :=
  layout.map fun item =>
    match tabGroups.find? (fun g => g.id == item.id) with
    | some g => .tabGroup item g
    | none => .block item

/-- A block id is already a member of some tab group. -/
def isGroupMember (b : String) (gs : List TabGroup) : Bool :=
  gs.any fun g => g.blockIds.contains b

/-- Replace the first group with the given id. -/
def replaceFirstGroup (gs : List TabGroup) (gid : String) (g' : TabGroup) :
    List TabGroup :=
  match gs with
  | [] => []
  | g :: rest => if g.id = gid then g' :: rest else g :: replaceFirstGroup rest gid g'

/-- Remove the first group with the given id. -/
def removeFirstGroup (gs : List TabGroup) (gid : String) : List TabGroup :=
  match gs with
  | [] => []
  | g :: rest => if g.id = gid then rest else g :: removeFirstGroup rest gid

/-- Modelled from the spec: `createTabGroup(nodeType, blockIds) → groupId |
null`.  Preconditions: at least two block ids, none already a tab-group
member; on failure returns `null` (here `none`) without mutating anything.
Effect: the first block's grid rect is kept as the new group's rect (under
the fresh group id), the other grouped blocks' rects are removed, and a new
`TabGroup` with `activeIndex = 0` is appended.  The generated group id is
supplied as `groupId`. -/
def createTabGroup (groupId : String) (blockIds : List String)
    (st : EngineModeState) : Option EngineModeState :=
  match blockIds with
  | primary :: _ :: _ =>
      if blockIds.all (fun b => !isGroupMember b st.tabGroups) then
        some
          { layout := st.layout.filterMap fun it =>
              if it.id = primary then some { it with id := groupId }
              else if blockIds.contains it.id then none
              else some it,
            tabGroups := st.tabGroups ++
              [{ id := groupId, blockIds := blockIds, activeIndex := 0 }] }
      else none
  | _ => none

/-- Modelled from the spec: `dissolveTabGroup(nodeType, groupId)` — removes
the group and restores each member as an independent `GridItem`, stacked from
the group's rect downwards in steps of 2 rows (the spec leaves the exact
placement policy cosmetic).  Unknown group ids are a no-op. -/
def dissolveTabGroup (groupId : String) (st : EngineModeState) : EngineModeState :=
  match st.tabGroups.find? (fun g => g.id == groupId) with
  | none => st
  | some g =>
      let base : GridItem :=
        match st.layout.find? (fun it => it.id == groupId) with
        | some r => r
        | none => { id := groupId, x := 0, y := 0, w := 2, h := 2 }
      let restored : List GridItem := g.blockIds.enum.map fun ib =>
        { id := ib.2, x := base.x, y := base.y + 2 * (ib.1 : Int), w := base.w, h := base.h }
      { layout := st.layout.filter (fun it => it.id ≠ groupId) ++ restored,
        tabGroups := removeFirstGroup st.tabGroups groupId }

/-- Modelled from the spec: `switchTabGroupActive(nodeType, groupId, index)`
— sets `activeIndex`, clamping an out-of-range index into
`[0, blockIds.length - 1]`; never throws, and unknown group ids are a no-op. -/
def switchTabGroupActive (groupId : String) (index : Int) (st : EngineModeState) :
    EngineModeState :=
  match st.tabGroups.find? (fun g => g.id == groupId) with
  | none => st
  | some g =>
      let g' : TabGroup :=
        { g with activeIndex := max 0 (min index ((g.blockIds.length : Int) - 1)) }
      { st with tabGroups := replaceFirstGroup st.tabGroups groupId g' }

/-- Modelled from the spec: `removeBlockFromTabGroup(nodeType, groupId,
blockId)` — removes one member from the group; when exactly one member
remains, auto-dissolves the group (equivalent to `dissolveTabGroup`).
Unknown group ids are a no-op. -/
def removeBlockFromTabGroup (groupId blockId : String) (st : EngineModeState) :
    EngineModeState :=
  match st.tabGroups.find? (fun g => g.id == groupId) with
  | none => st
  | some g =>
      let newIds := g.blockIds.erase blockId
      let g' : TabGroup := { g with blockIds := newIds }
      let st' : EngineModeState :=
        { st with tabGroups := replaceFirstGroup st.tabGroups groupId g' }
      if newIds.length = 1 then dissolveTabGroup groupId st' else st'

/-- One call in a sequence of tab-group mutations (the operations named by
the tab-group invariant). -/
inductive TabOp where
  | create (groupId : String) (blockIds : List String)
  | dissolve (groupId : String)
  | removeBlock (groupId blockId : String)
deriving Repr, DecidableEq

/-- Run one mutation; a `null` return of `createTabGroup` leaves the state
unchanged. -/
def applyTabOp (st : EngineModeState) (op : TabOp) : EngineModeState :=
  match op with
  | .create gid ids => (createTabGroup gid ids st).getD st
  | .dissolve gid => dissolveTabGroup gid st
  | .removeBlock gid bid => removeBlockFromTabGroup gid bid st

/-- Run a call sequence. -/
def applyTabOps (ops : List TabOp) (st : EngineModeState) : EngineModeState :=
  ops.foldl applyTabOp st

/-- The tab-group invariant: the member lists of the mode's groups are
pairwise disjoint (no block id in two different groups), and every group has
at least two members. -/
def TabGroupsWF (gs : List TabGroup) : Prop :=
  gs.Pairwise (fun g1 g2 => g1.blockIds.Disjoint g2.blockIds) ∧
    ∀ g ∈ gs, 2 ≤ g.blockIds.length

/-!
## C1 — completeness and order of `computeEffectiveItems`
-/

/-- When group ids are distinct, `find?` on an id returns exactly the member
group bearing it. -/
theorem find?_group_of_nodup (gs : List TabGroup)
    (hnd : (gs.map TabGroup.id).Nodup) (g : TabGroup) (hg : g ∈ gs)
    (x : String) (hx : g.id = x) :
    gs.find? (fun g' => g'.id == x) = some g := by
  induction gs with
  | nil => cases hg
  | cons hd tl ih =>
      by_cases hhd : hd.id = x
      · rw [List.find?_cons_of_pos _ (by simpa [beq_iff_eq] using hhd)]
        rcases List.mem_cons.mp hg with rfl | hgtl
        · rfl
        · exfalso
          have : hd.id ∈ tl.map TabGroup.id := by
            rw [hhd, ← hx]
            exact List.mem_map_of_mem _ hgtl
          exact (List.nodup_cons.mp (by simpa using hnd)).1 this
      · rw [List.find?_cons_of_neg _ (by simpa [beq_iff_eq] using hhd)]
        rcases List.mem_cons.mp hg with rfl | hgtl
        · exact absurd hx hhd
        · exact ih (List.nodup_cons.mp (by simpa using hnd)).2 hgtl

/-- C1: `computeEffectiveItems(layout, tabGroups)` yields exactly one
effective item per grid item of `layout`, at the same position (hence in the
same order); a grid item whose id matches no group id becomes a block item,
and one whose id equals the id of a member group becomes a tab-group item
carrying that group. -/
theorem computeEffectiveItems_spec (layout : List GridItem)
    (tabGroups : List TabGroup) (hnd : (tabGroups.map TabGroup.id).Nodup) :
    (computeEffectiveItems layout tabGroups).length = layout.length ∧
    ∀ (i : Nat) (item : GridItem), layout[i]? = some item →
      ((∀ g ∈ tabGroups, g.id ≠ item.id) →
        (computeEffectiveItems layout tabGroups)[i]? = some (.block item)) ∧
      (∀ g ∈ tabGroups, g.id = item.id →
        (computeEffectiveItems layout tabGroups)[i]? = some (.tabGroup item g)) := by
  constructor
  · simp [computeEffectiveItems]
  · intro i item hi
    have hmap : (computeEffectiveItems layout tabGroups)[i]? =
        some (match tabGroups.find? (fun g => g.id == item.id) with
          | some g => .tabGroup item g
          | none => .block item) := by
      simp [computeEffectiveItems, hi]
    constructor
    · intro hno
      have hnone : tabGroups.find? (fun g => g.id == item.id) = none := by
        rw [List.find?_eq_none]
        intro g hg
        simpa [beq_iff_eq] using hno g hg
      rw [hmap, hnone]
    · intro g hg hid
      rw [hmap, find?_group_of_nodup tabGroups hnd g hg item.id hid]

/-- Concrete data for the C1 witness. -/
def effItemA : GridItem := { id := "a", x := 0, y := 0, w := 1, h := 1 }

def effItemG : GridItem := { id := "g1", x := 1, y := 0, w := 1, h := 1 }

def effGroupG : TabGroup := { id := "g1", blockIds := ["u", "v"], activeIndex := 0 }

def effLayoutExample : List GridItem := [effItemA, effItemG]

def effGroupsExample : List TabGroup := [effGroupG]

/-- Witness for C1 on a two-item layout with one tab group. -/
theorem computeEffectiveItems_spec_witness :
    ((effGroupsExample.map TabGroup.id).Nodup ∧
      effLayoutExample[0]? = some effItemA ∧
      effLayoutExample[1]? = some effItemG) ∧
    (computeEffectiveItems effLayoutExample effGroupsExample).length =
      effLayoutExample.length ∧
    (computeEffectiveItems effLayoutExample effGroupsExample)[0]? =
      some (.block effItemA) ∧
    (computeEffectiveItems effLayoutExample effGroupsExample)[1]? =
      some (.tabGroup effItemG effGroupG) := by
  have h := computeEffectiveItems_spec effLayoutExample effGroupsExample (by decide)
  refine ⟨⟨by decide, rfl, rfl⟩, h.1, ?_, ?_⟩
  · exact (h.2 0 effItemA rfl).1 (by decide)
  · exact (h.2 1 effItemG rfl).2 effGroupG (by decide) rfl

/-!
## C4 — out-of-range tab switch clamps
-/

/-- A successful `find?` on a group id splits the group list around the first
group with that id, and `replaceFirstGroup` replaces exactly that group. -/
theorem find?_group_decomp (gs : List TabGroup) (gid : String) (g : TabGroup)
    (h : gs.find? (fun x => x.id == gid) = some g) :
    g.id = gid ∧ ∃ l₁ l₂, gs = l₁ ++ g :: l₂ ∧ (∀ x ∈ l₁, x.id ≠ gid) ∧
      ∀ g', replaceFirstGroup gs gid g' = l₁ ++ g' :: l₂ := by
  induction gs with
  | nil => simp [List.find?] at h
  | cons hd tl ih =>
      by_cases hhd : hd.id = gid
      · rw [List.find?_cons_of_pos _ (by simpa [beq_iff_eq] using hhd)] at h
        obtain rfl : hd = g := by injection h
        refine ⟨hhd, [], tl, rfl, by simp, ?_⟩
        intro g'
        simp [replaceFirstGroup, hhd]
      · rw [List.find?_cons_of_neg _ (by simpa [beq_iff_eq] using hhd)] at h
        obtain ⟨hgid, l₁, l₂, heq, hl₁, hrep⟩ := ih h
        refine ⟨hgid, hd :: l₁, l₂, by rw [heq]; rfl, ?_, ?_⟩
        · intro x hx
          rcases List.mem_cons.mp hx with rfl | hxl
          · exact hhd
          · exact hl₁ x hxl
        · intro g'
          simp [replaceFirstGroup, hhd, hrep g']

/-- C4: `switchTabGroupActive` with any index on an existing (nonempty) group
never throws and leaves the group with `activeIndex` clamped into
`[0, blockIds.length - 1]`; the layout and all other groups are untouched. -/
theorem switchTabGroupActive_clamps (st : EngineModeState) (gid : String)
    (index : Int) (g : TabGroup)
    (hfind : st.tabGroups.find? (fun x => x.id == gid) = some g)
    (hne : g.blockIds ≠ []) :
    ∃ l₁ l₂,
      st.tabGroups = l₁ ++ g :: l₂ ∧
      (switchTabGroupActive gid index st).tabGroups =
        l₁ ++ { g with activeIndex := max 0 (min index ((g.blockIds.length : Int) - 1)) } :: l₂ ∧
      (switchTabGroupActive gid index st).layout = st.layout ∧
      0 ≤ max 0 (min index ((g.blockIds.length : Int) - 1)) ∧
      max 0 (min index ((g.blockIds.length : Int) - 1)) ≤
        (g.blockIds.length : Int) - 1 := by
  obtain ⟨hgid, l₁, l₂, hsplit, hl₁, hrep⟩ := find?_group_decomp _ _ _ hfind
  have hstep : (switchTabGroupActive gid index st).tabGroups =
      replaceFirstGroup st.tabGroups gid
        { g with activeIndex := max 0 (min index ((g.blockIds.length : Int) - 1)) } ∧
      (switchTabGroupActive gid index st).layout = st.layout := by
    unfold switchTabGroupActive
    rw [hfind]
    exact ⟨rfl, rfl⟩
  have hlen : (1 : Int) ≤ (g.blockIds.length : Int) := by
    exact_mod_cast Nat.one_le_iff_ne_zero.mpr
      (fun h0 => hne (List.length_eq_zero.mp h0))
  refine ⟨l₁, l₂, hsplit, ?_, hstep.2, le_max_left _ _, ?_⟩
  · rw [hstep.1]
    exact hrep _
  · exact max_le (by omega) (min_le_right _ _)

/-- Concrete data for the C4 witness (Scenario C). -/
def switchExampleGroup : TabGroup := { id := "g", blockIds := ["a", "b"], activeIndex := 0 }

def switchExampleState : EngineModeState :=
  { layout := [], tabGroups := [switchExampleGroup] }

/-- Witness for C4 (Scenario C): index 5 on a 2-member group clamps to
`activeIndex = 1` without an error. -/
theorem switchTabGroupActive_clamps_witness :
    (switchExampleState.tabGroups.find? (fun x => x.id == "g") =
      some switchExampleGroup) ∧
    switchExampleGroup.blockIds ≠ [] ∧
    (∃ l₁ l₂,
      switchExampleState.tabGroups = l₁ ++ switchExampleGroup :: l₂ ∧
      (switchTabGroupActive "g" 5 switchExampleState).tabGroups =
        l₁ ++ { switchExampleGroup with activeIndex := max 0 (min 5 ((switchExampleGroup.blockIds.length : Int) - 1)) } :: l₂ ∧
      (switchTabGroupActive "g" 5 switchExampleState).layout =
        switchExampleState.layout ∧
      0 ≤ max 0 (min 5 ((switchExampleGroup.blockIds.length : Int) - 1)) ∧
      max 0 (min 5 ((switchExampleGroup.blockIds.length : Int) - 1)) ≤
        (switchExampleGroup.blockIds.length : Int) - 1) ∧
    switchTabGroupActive "g" 5 switchExampleState =
      { layout := [],
        tabGroups := [{ id := "g", blockIds := ["a", "b"], activeIndex := 1 }] } := by
  refine ⟨rfl, by decide, ?_, by decide⟩
  exact switchTabGroupActive_clamps switchExampleState "g" 5 switchExampleGroup
    rfl (by decide)

/-!
## C2 — the tab-group invariant across call sequences
-/

/-- Membership characterization of `isGroupMember`. -/
theorem isGroupMember_iff (b : String) (gs : List TabGroup) :
    isGroupMember b gs = true ↔ ∃ g ∈ gs, b ∈ g.blockIds := by
  simp [isGroupMember, List.contains, List.elem_eq_mem]

/-- The empty group list satisfies the invariant. -/
theorem tabGroupsWF_nil : TabGroupsWF [] := ⟨List.Pairwise.nil, by simp⟩

theorem removeFirstGroup_sublist (gs : List TabGroup) (gid : String) :
    List.Sublist (removeFirstGroup gs gid) gs := by
  induction gs with
  | nil => simp [removeFirstGroup]
  | cons g rest ih =>
      by_cases h : g.id = gid
      · simp only [removeFirstGroup, if_pos h]
        exact List.sublist_cons_self _ _
      · simp only [removeFirstGroup, if_neg h]
        exact List.Sublist.cons₂ _ ih

/-- The invariant restricts to sublists of the group list. -/
theorem TabGroupsWF.sublist {gs gs' : List TabGroup} (hsub : List.Sublist gs' gs)
    (h : TabGroupsWF gs) : TabGroupsWF gs' :=
  ⟨List.Pairwise.sublist hsub h.1, fun g hg => h.2 g (hsub.subset hg)⟩

theorem find?_append_cons (l₁ l₂ : List TabGroup) (x : TabGroup) (gid : String)
    (hx : x.id = gid) (hl₁ : ∀ y ∈ l₁, y.id ≠ gid) :
    (l₁ ++ x :: l₂).find? (fun g => g.id == gid) = some x := by
  induction l₁ with
  | nil =>
      rw [List.nil_append]
      apply List.find?_cons_of_pos
      simpa [beq_iff_eq] using hx
  | cons y t ih =>
      rw [List.cons_append,
        List.find?_cons_of_neg _
          (by simpa [beq_iff_eq] using hl₁ y (List.mem_cons_self _ _))]
      exact ih fun z hz => hl₁ z (List.mem_cons_of_mem _ hz)

theorem removeFirstGroup_append (l₁ l₂ : List TabGroup) (x : TabGroup)
    (gid : String) (hx : x.id = gid) (hl₁ : ∀ y ∈ l₁, y.id ≠ gid) :
    removeFirstGroup (l₁ ++ x :: l₂) gid = l₁ ++ l₂ := by
  induction l₁ with
  | nil => simp [removeFirstGroup, hx]
  | cons y t ih =>
      rw [List.cons_append]
      simp only [removeFirstGroup, if_neg (hl₁ y (List.mem_cons_self _ _))]
      rw [ih fun z hz => hl₁ z (List.mem_cons_of_mem _ hz)]
      rfl

/-- Shrinking the member list of one group preserves pairwise disjointness. -/
theorem pairwise_disjoint_middle (l₁ l₂ : List TabGroup) (g g' : TabGroup)
    (hsub : ∀ a, a ∈ g'.blockIds → a ∈ g.blockIds)
    (hp : (l₁ ++ g :: l₂).Pairwise (fun a b => a.blockIds.Disjoint b.blockIds)) :
    (l₁ ++ g' :: l₂).Pairwise (fun a b => a.blockIds.Disjoint b.blockIds) := by
  rw [List.pairwise_append] at hp ⊢
  obtain ⟨hp1, hp2, hcross⟩ := hp
  rw [List.pairwise_cons] at hp2 ⊢
  refine ⟨hp1, ⟨?_, hp2.2⟩, ?_⟩
  · intro b hb c hc1 hc2
    exact hp2.1 b hb (hsub _ hc1) hc2
  · intro a ha b hb
    rcases List.mem_cons.mp hb with rfl | hb2
    · intro c hc1 hc2
      exact hcross a ha g (List.mem_cons_self _ _) hc1 (hsub _ hc2)
    · exact hcross a ha b (List.mem_cons_of_mem _ hb2)

theorem dissolveTabGroup_tabGroups_of_found (gid : String) (st : EngineModeState)
    (g : TabGroup) (hf : st.tabGroups.find? (fun x => x.id == gid) = some g) :
    (dissolveTabGroup gid st).tabGroups = removeFirstGroup st.tabGroups gid := by
  unfold dissolveTabGroup
  rw [hf]

/-- `createTabGroup` (with a `null` result leaving the state unchanged)
preserves the tab-group invariant. -/
theorem createTabGroup_wf (gid : String) (ids : List String)
    (st : EngineModeState) (h : TabGroupsWF st.tabGroups) :
    TabGroupsWF ((createTabGroup gid ids st).getD st).tabGroups := by
  match ids with
  | [] => exact h
  | [x] => exact h
  | x :: y :: t =>
      cases hall : (x :: y :: t).all (fun b => !isGroupMember b st.tabGroups) with
      | false =>
          have hnone : createTabGroup gid (x :: y :: t) st = none := by
            unfold createTabGroup
            rw [hall]
            rfl
          rw [hnone]
          exact h
      | true =>
          have htg : ((createTabGroup gid (x :: y :: t) st).getD st).tabGroups =
              st.tabGroups ++
                [{ id := gid, blockIds := x :: y :: t, activeIndex := 0 }] := by
            unfold createTabGroup
            rw [hall]
            rfl
          rw [htg]
          constructor
          · rw [List.pairwise_append]
            refine ⟨h.1, List.pairwise_singleton _ _, ?_⟩
            intro a ha b hb
            rw [List.mem_singleton] at hb
            subst hb
            intro c hc1 hc2
            have hmem : isGroupMember c st.tabGroups = false := by
              simpa using List.all_eq_true.mp hall c hc2
            rw [Bool.eq_false_iff] at hmem
            exact hmem ((isGroupMember_iff c st.tabGroups).mpr ⟨a, ha, hc1⟩)
          · intro g hg
            rcases List.mem_append.mp hg with hg | hg
            · exact h.2 g hg
            · rw [List.mem_singleton] at hg
              subst hg
              simp only [List.length_cons]
              omega

/-- `dissolveTabGroup` preserves the tab-group invariant. -/
theorem dissolveTabGroup_wf (gid : String) (st : EngineModeState)
    (h : TabGroupsWF st.tabGroups) :
    TabGroupsWF (dissolveTabGroup gid st).tabGroups := by
  cases hf : st.tabGroups.find? (fun x => x.id == gid) with
  | none =>
      have heq : dissolveTabGroup gid st = st := by
        unfold dissolveTabGroup
        rw [hf]
      rw [heq]
      exact h
  | some g =>
      rw [dissolveTabGroup_tabGroups_of_found gid st g hf]
      exact TabGroupsWF.sublist (removeFirstGroup_sublist _ _) h

/-- `removeBlockFromTabGroup` preserves the tab-group invariant. -/
theorem removeBlockFromTabGroup_wf (gid bid : String) (st : EngineModeState)
    (h : TabGroupsWF st.tabGroups) :
    TabGroupsWF (removeBlockFromTabGroup gid bid st).tabGroups := by
  cases hf : st.tabGroups.find? (fun x => x.id == gid) with
  | none =>
      have heq : removeBlockFromTabGroup gid bid st = st := by
        unfold removeBlockFromTabGroup
        rw [hf]
      rw [heq]
      exact h
  | some g =>
      obtain ⟨hgid, l₁, l₂, hsplit, hl₁, hrep⟩ := find?_group_decomp _ _ _ hf
      have hglen : 2 ≤ g.blockIds.length := h.2 g (List.mem_of_find?_eq_some hf)
      have hst' : removeBlockFromTabGroup gid bid st =
          (if (g.blockIds.erase bid).length = 1
            then dissolveTabGroup gid { st with tabGroups := replaceFirstGroup st.tabGroups gid { g with blockIds := g.blockIds.erase bid } }
            else { st with tabGroups := replaceFirstGroup st.tabGroups gid { g with blockIds := g.blockIds.erase bid } }) := by
        unfold removeBlockFromTabGroup
        rw [hf]
      have htg' : replaceFirstGroup st.tabGroups gid
          { g with blockIds := g.blockIds.erase bid } =
            l₁ ++ ({ g with blockIds := g.blockIds.erase bid }) :: l₂ :=
        hrep _
      by_cases hone : (g.blockIds.erase bid).length = 1
      · rw [hst', if_pos hone]
        have hfind' : (replaceFirstGroup st.tabGroups gid
            { g with blockIds := g.blockIds.erase bid }).find?
              (fun x => x.id == gid) =
            some ({ g with blockIds := g.blockIds.erase bid }) := by
          rw [htg']
          exact find?_append_cons l₁ l₂ _ gid hgid hl₁
        rw [dissolveTabGroup_tabGroups_of_found gid _ _ hfind']
        show TabGroupsWF (removeFirstGroup (replaceFirstGroup st.tabGroups gid
          ({ g with blockIds := g.blockIds.erase bid })) gid)
        rw [htg', removeFirstGroup_append l₁ l₂
          ({ g with blockIds := g.blockIds.erase bid }) gid hgid hl₁]
        refine TabGroupsWF.sublist ?_ (hsplit ▸ h)
        exact List.Sublist.append_left (List.sublist_cons_self g l₂) l₁
      · rw [hst', if_neg hone]
        show TabGroupsWF (replaceFirstGroup st.tabGroups gid
          ({ g with blockIds := g.blockIds.erase bid }))
        rw [htg']
        constructor
        · refine pairwise_disjoint_middle l₁ l₂ g _
            (fun a ha => List.erase_subset _ _ ha) ?_
          rw [← hsplit]
          exact h.1
        · intro x hx
          rcases List.mem_append.mp hx with hx1 | hx2
          · exact h.2 x (by rw [hsplit]; exact List.mem_append_left _ hx1)
          · rcases List.mem_cons.mp hx2 with rfl | hx3
            · show 2 ≤ (g.blockIds.erase bid).length
              have hlen := List.length_erase bid g.blockIds
              by_cases hbmem : bid ∈ g.blockIds
              · rw [if_pos hbmem] at hlen
                omega
              · rw [if_neg hbmem] at hlen
                omega
            · exact h.2 x
                (by rw [hsplit]
                    exact List.mem_append_right _ (List.mem_cons_of_mem _ hx3))

/-- Each of the three mutations preserves the tab-group invariant. -/
theorem applyTabOp_wf (st : EngineModeState) (op : TabOp)
    (h : TabGroupsWF st.tabGroups) : TabGroupsWF (applyTabOp st op).tabGroups := by
  cases op with
  | create gid ids => exact createTabGroup_wf gid ids st h
  | dissolve gid => exact dissolveTabGroup_wf gid st h
  | removeBlock gid bid => exact removeBlockFromTabGroup_wf gid bid st h

/-- C2: after every sequence of `createTabGroup` / `dissolveTabGroup` /
`removeBlockFromTabGroup` calls starting from a fresh configuration (with any
initial layout and no tab groups), no block id appears in two different
`TabGroup.blockIds` lists of the mode, and every remaining group has at least
two members — a group whose membership would drop to one is dissolved
automatically. -/
theorem tabGroup_invariant_all_sequences (ops : List TabOp)
    (layout0 : List GridItem) :
    TabGroupsWF (applyTabOps ops (freshModeState layout0)).tabGroups := by
  suffices hgen : ∀ st : EngineModeState, TabGroupsWF st.tabGroups →
      TabGroupsWF (applyTabOps ops st).tabGroups from
    hgen _ tabGroupsWF_nil
  induction ops with
  | nil => intro st h; exact h
  | cons op rest ih =>
      intro st h
      rw [applyTabOps, List.foldl_cons]
      exact ih _ (applyTabOp_wf st op h)

/-!
## C3 — effect and preconditions of `createTabGroup`
-/

/-- C3: with at least two block ids, none already grouped, and a fresh group
id, `createTabGroup` succeeds: it appends one `TabGroup` with the given
member list and `activeIndex = 0`, the resulting layout has no individual
entry for any grouped block, the first block's rect survives at its position
under the group id, and ungrouped rects are untouched.  When the
preconditions fail — fewer than two ids, or some id already a member — it
returns `null` (and, being a total function, never throws). -/
theorem createTabGroup_spec (st : EngineModeState) (gid primary b2 : String)
    (rest : List String)
    (hmem : ∀ b ∈ primary :: b2 :: rest, isGroupMember b st.tabGroups = false)
    (hgid : gid ∉ primary :: b2 :: rest) :
    (∃ st', createTabGroup gid (primary :: b2 :: rest) st = some st' ∧
      st'.tabGroups = st.tabGroups ++
        [{ id := gid, blockIds := primary :: b2 :: rest, activeIndex := 0 }] ∧
      (∀ it ∈ st'.layout, it.id ∉ primary :: b2 :: rest) ∧
      (∀ it ∈ st.layout, it.id = primary →
        ({ it with id := gid } : GridItem) ∈ st'.layout) ∧
      (∀ it ∈ st.layout, it.id ∉ primary :: b2 :: rest → it ∈ st'.layout)) ∧
    (∀ (bs : List String) (st₀ : EngineModeState) (g₀ : String),
      bs.length < 2 → createTabGroup g₀ bs st₀ = none) ∧
    (∀ (bs : List String) (st₀ : EngineModeState) (g₀ b : String), b ∈ bs →
      isGroupMember b st₀.tabGroups = true → createTabGroup g₀ bs st₀ = none) := by
  have hall : (primary :: b2 :: rest).all
      (fun b => !isGroupMember b st.tabGroups) = true := by
    rw [List.all_eq_true]
    intro b hb
    simp [hmem b hb]
  have hcreate : createTabGroup gid (primary :: b2 :: rest) st =
      some { layout := st.layout.filterMap fun it =>
               if it.id = primary then some { it with id := gid }
               else if (primary :: b2 :: rest).contains it.id then none
               else some it,
             tabGroups := st.tabGroups ++
               [{ id := gid, blockIds := primary :: b2 :: rest, activeIndex := 0 }] } := by
    unfold createTabGroup
    rw [hall]
    rfl
  refine ⟨⟨_, hcreate, rfl, ?_, ?_, ?_⟩, ?_, ?_⟩
  · intro it' hit'
    rw [List.mem_filterMap] at hit'
    obtain ⟨b, hb, hfb⟩ := hit'
    split_ifs at hfb with h1 h2
    · obtain rfl : ({ b with id := gid } : GridItem) = it' := Option.some.inj hfb
      simpa using hgid
    · obtain rfl : b = it' := Option.some.inj hfb
      intro hm
      exact h2 (by simpa [List.contains, List.elem_eq_mem] using hm)
  · intro it hit hidp
    rw [List.mem_filterMap]
    exact ⟨it, hit, by rw [if_pos hidp]⟩
  · intro it hit hnm
    rw [List.mem_filterMap]
    refine ⟨it, hit, ?_⟩
    have h1 : ¬it.id = primary := fun h => hnm (h ▸ List.mem_cons_self _ _)
    have h2 : ¬((primary :: b2 :: rest).contains it.id = true) := by
      simpa [List.contains, List.elem_eq_mem] using hnm
    rw [if_neg h1, if_neg h2]
  · intro bs st₀ g₀ hlen
    match bs with
    | [] => rfl
    | [x] => rfl
    | x :: y :: t => simp at hlen; omega
  · intro bs st₀ g₀ b hb hm
    match bs, hb with
    | x :: t, hb =>
        match t, hb with
        | [], hb => rfl
        | y :: t2, hb =>
            have hall' : (x :: y :: t2).all
                (fun c => !isGroupMember c st₀.tabGroups) = false := by
              rw [List.all_eq_false]
              exact ⟨b, hb, by simp [hm]⟩
            simp [createTabGroup, hall']

/-- The fresh two-block configuration of Scenario A. -/
def scenarioAState : EngineModeState := freshModeState [
  { id := "path", x := 0, y := 0, w := 2, h := 2 },
  { id := "filter", x := 2, y := 0, w := 2, h := 2 }]

/-- Witness for C3 (Scenario A): grouping `path` and `filter` on the fresh
config leaves exactly one grid item — the group id at the first block's rect
`(0,0,2,2)` — and one `TabGroup` with `activeIndex = 0`. -/
theorem createTabGroup_spec_witness :
    (∀ b ∈ ["path", "filter"], isGroupMember b scenarioAState.tabGroups = false) ∧
    "g1" ∉ ["path", "filter"] ∧
    (∃ st', createTabGroup "g1" ["path", "filter"] scenarioAState = some st' ∧
      st'.tabGroups = scenarioAState.tabGroups ++
        [{ id := "g1", blockIds := ["path", "filter"], activeIndex := 0 }] ∧
      (∀ it ∈ st'.layout, it.id ∉ ["path", "filter"]) ∧
      (∀ it ∈ scenarioAState.layout, it.id = "path" →
        ({ it with id := "g1" } : GridItem) ∈ st'.layout) ∧
      (∀ it ∈ scenarioAState.layout, it.id ∉ ["path", "filter"] →
        it ∈ st'.layout)) ∧
    createTabGroup "g1" ["path", "filter"] scenarioAState = some
      { layout := [{ id := "g1", x := 0, y := 0, w := 2, h := 2 }],
        tabGroups := [{ id := "g1", blockIds := ["path", "filter"], activeIndex := 0 }] } := by
  refine ⟨by decide, by decide, ?_, by decide⟩
  exact (createTabGroup_spec scenarioAState "g1" "path" "filter" []
    (by decide) (by decide)).1

/-!
## C10 — default-preset resolution without a mode argument
-/

/-- C10 counterexample: the defaults entry `{ fullscreen: "", normal: "n" }`
has its fullscreen default set (to the empty string), yet
`getDefaultPresetId` without a mode returns the *normal* id `"n"` rather than
the configured fullscreen value, because `config.fullscreen || config.normal
|| null` treats the empty string as falsy.  So the fullscreen setting does
not always take precedence when set. -/
theorem getDefaultPresetId_empty_string_counterexample :
    getDefaultPresetId [("findz", { fullscreen := some "", normal := some "n" })]
      "findz" none = some "n" ∧
    (some "n" : Option String) ≠ some "" := by
  exact ⟨rfl, by decide⟩

/-- C10 (amended): for a node type with a configured default-preset entry,
`getDefaultPresetId` without a mode returns the fullscreen default id when it
is set *and nonempty*; otherwise the normal default id when set and nonempty;
otherwise `null` — an empty-string entry behaves as unset, by JavaScript
truthiness of `config.fullscreen || config.normal || null`. -/
theorem getDefaultPresetId_fullscreen_precedence
    (defaults : List (String × DefaultPresetConfig)) (nodeType : String)
    (config : DefaultPresetConfig)
    (h : defaults.lookup nodeType = some config) :
    (∀ s, config.fullscreen = some s → s ≠ "" →
      getDefaultPresetId defaults nodeType none = some s) ∧
    ((config.fullscreen = none ∨ config.fullscreen = some "") →
      ∀ t, config.normal = some t → t ≠ "" →
        getDefaultPresetId defaults nodeType none = some t) ∧
    ((config.fullscreen = none ∨ config.fullscreen = some "") →
      (config.normal = none ∨ config.normal = some "") →
      getDefaultPresetId defaults nodeType none = none) := by
  have hred : getDefaultPresetId defaults nodeType none =
      if truthyStr config.fullscreen then config.fullscreen
      else if truthyStr config.normal then config.normal else none := by
    unfold getDefaultPresetId
    rw [h]
  refine ⟨?_, ?_, ?_⟩
  · intro s hs hne
    rw [hred]
    simp [hs, truthyStr, hne]
  · intro hf t ht htne
    have hfals : truthyStr config.fullscreen = false := by
      rcases hf with hf | hf <;> simp [hf, truthyStr]
    rw [hred, hfals]
    simp [ht, truthyStr, htne]
  · intro hf hn
    have hfals : truthyStr config.fullscreen = false := by
      rcases hf with hf | hf <;> simp [hf, truthyStr]
    have hnals : truthyStr config.normal = false := by
      rcases hn with hn | hn <;> simp [hn, truthyStr]
    rw [hred, hfals, hnals]
    simp

/-- A concrete defaults entry used by the C10 witness. -/
def defaultsExampleEntry : DefaultPresetConfig :=
  { fullscreen := some "f", normal := some "n" }

/-- A concrete defaults mapping used by the C10 witness. -/
def defaultsExample : List (String × DefaultPresetConfig) :=
  [("t", defaultsExampleEntry)]

/-- Witness for C10's amended theorem at a concrete defaults mapping. -/
theorem getDefaultPresetId_fullscreen_precedence_witness :
    (defaultsExample.lookup "t" = some defaultsExampleEntry) ∧
    getDefaultPresetId defaultsExample "t" none = some "f" := by
  refine ⟨by decide, ?_⟩
  exact (getDefaultPresetId_fullscreen_precedence defaultsExample "t"
    defaultsExampleEntry (by decide)).1 "f" rfl (by decide)

/-!
## C9 — node-config persistence under write failure
-/

/-- C9 counterexample: with storage that can hold at most one entry, saving a
two-entry mapping fails, and `saveToStorage` stores nothing at all (the
previously stored blob, here empty, is all that remains) — even though a
retry with a single retained entry would have fit, as the second conjunct
shows.  No eviction or retry is performed, contradicting the claimed
progressive-eviction recovery. -/
theorem saveToStorage_swallow_counterexample :
    saveToStorage (fun m => decide (m.length ≤ 1))
      [("a", .num 1), ("b", .num 2)] none = none ∧
    (fun (m : NodeConfigMap) => decide (m.length ≤ 1)) [("b", .num 2)] = true := by
  exact ⟨rfl, rfl⟩

/-- C9 (amended): when saving the `nodeId → NodeConfig` mapping fails, the
store logs and swallows the error without retrying or evicting anything: the
previously stored blob is left as-is (so the UI does not crash and old data
survives, but the new mapping is simply not persisted); a successful write
stores the whole mapping. -/
theorem saveToStorage_spec (canWrite : NodeConfigMap → Bool)
    (configs : NodeConfigMap) (prev : Option NodeConfigMap) :
    (canWrite configs = true → saveToStorage canWrite configs prev = some configs) ∧
    (canWrite configs = false → saveToStorage canWrite configs prev = prev) := by
  constructor <;> intro h <;> simp [saveToStorage, h]

/-- Witness for C9's amended theorem: a failing write leaves the previous
blob in place. -/
theorem saveToStorage_spec_witness :
    ((fun (_ : NodeConfigMap) => false) [("a", JsonVal.null)] = false) ∧
    saveToStorage (fun _ => false) [("a", JsonVal.null)]
      (some [("k", JsonVal.num 7)]) = some [("k", JsonVal.num 7)] :=
  ⟨rfl, (saveToStorage_spec _ _ _).2 rfl⟩

/-!
## C6 — `importNodeConfig` validation behaviour
-/

/-- C6 counterexample: the string `"{}"` parses to the empty object, which
does not have the `NodeConfig` shape; the claim says such an import must
return `false` and leave the stored config untouched, but `importNodeConfig`
returns `true` and overwrites the entry under `"n"` (its unchecked
`as NodeConfig` cast performs no shape validation). -/
theorem importNodeConfig_no_validation_counterexample :
    isNodeConfigShape (.obj []) = false ∧
    importNodeConfig "n" (some (.obj [])) 99 [("n", .str "old")] =
      (true, [("n", .obj [("updatedAt", .num 99)])]) ∧
    ([("n", JsonVal.obj [("updatedAt", JsonVal.num 99)])] : NodeConfigMap) ≠
      [("n", .str "old")] := by
  refine ⟨rfl, rfl, by decide⟩

/-- C6 (amended): `importNodeConfig` returns `false` exactly when the input
fails to parse as JSON, in which case the stored mapping is unchanged; *any*
successfully parsed JSON — whether or not it has the `NodeConfig` shape — is
accepted with `true` and replaces the stored config wholesale (spread with
`updatedAt` set to the import time), leaving every other node's entry
untouched. -/
theorem importNodeConfig_parse_only
    (nodeId : String) (parsed : Option JsonVal) (now : Int) (m : NodeConfigMap) :
    (parsed = none → importNodeConfig nodeId parsed now m = (false, m)) ∧
    (∀ v, parsed = some v →
      (importNodeConfig nodeId parsed now m).1 = true ∧
      ((importNodeConfig nodeId parsed now m).2.lookup nodeId =
        some (.obj (setEntry (spreadFields v) "updatedAt" (.num now)))) ∧
      (∀ other, other ≠ nodeId →
        (importNodeConfig nodeId parsed now m).2.lookup other = m.lookup other)) := by
  constructor
  · intro h; subst h; rfl
  · intro v hv; subst hv
    refine ⟨rfl, ?_, ?_⟩
    · exact lookup_setEntry_self m nodeId _
    · intro other hother
      exact lookup_setEntry_ne m nodeId other _ hother

/-- Witness for C6's amended theorem: `3` (valid JSON, invalid shape) is
accepted and stored; a parse failure is rejected with the map unchanged. -/
theorem importNodeConfig_parse_only_witness :
    (importNodeConfig "n" (some (.num 3)) 7 []).1 = true ∧
    (importNodeConfig "n" (some (.num 3)) 7 []).2.lookup "n" =
      some (.obj [("updatedAt", .num 7)]) ∧
    importNodeConfig "n" none 7 [] = (false, []) := by
  have h := importNodeConfig_parse_only "n" (some (.num 3)) 7 []
  have h0 := importNodeConfig_parse_only "n" none 7 []
  exact ⟨(h.2 (.num 3) rfl).1, (h.2 (.num 3) rfl).2.1, h0.1 rfl⟩

/-!
## C5 — export/import round-trip of a valid stored config
-/

/-- Spreading an encoded `NodeConfig` and overwriting `updatedAt` yields the
encoding of the config with only `updatedAt` changed. -/
theorem setUpdatedAt_encodeNodeConfig (c : NodeConfig) (now : Int) :
    JsonVal.obj (setEntry (spreadFields (encodeNodeConfig c)) "updatedAt" (.num now)) =
      encodeNodeConfig { c with updatedAt := now } := rfl

/-- C5: for a valid `NodeConfig` stored under a node id,
`importNodeConfig(id, exportNodeConfig(id))` succeeds, and the stored result
is deep-equal to the original config in every field except `updatedAt`
(which becomes the import time); all other nodes' entries are untouched. -/
theorem exportImport_roundtrip (nodeId : String) (c : NodeConfig) (now : Int)
    (m : NodeConfigMap) (h : m.lookup nodeId = some (encodeNodeConfig c)) :
    (importNodeConfig nodeId (exportNodeConfig nodeId m) now m).1 = true ∧
    ((importNodeConfig nodeId (exportNodeConfig nodeId m) now m).2.lookup nodeId =
      some (encodeNodeConfig { c with updatedAt := now })) ∧
    (∀ other, other ≠ nodeId →
      (importNodeConfig nodeId (exportNodeConfig nodeId m) now m).2.lookup other =
        m.lookup other) := by
  have hexp : exportNodeConfig nodeId m = some (encodeNodeConfig c) := h
  rw [hexp]
  refine ⟨rfl, ?_, ?_⟩
  · show (setEntry m nodeId _).lookup nodeId = _
    rw [lookup_setEntry_self, setUpdatedAt_encodeNodeConfig]
  · intro other hother
    exact lookup_setEntry_ne m nodeId other _ hother

/-- A concrete valid `NodeConfig` used by the C5 witness. -/
def roundtripExampleConfig : NodeConfig :=
  { nodeType := "trename",
    fullscreen := { gridLayout := [], tabStates := [], tabBlocks := [], sizeOverrides := [] },
    normal := { blocks := [], tabStates := [], tabBlocks := [] },
    updatedAt := 5 }

/-- A concrete store holding `roundtripExampleConfig` under `"node-1"`. -/
def roundtripExampleStore : NodeConfigMap :=
  [("node-1", encodeNodeConfig roundtripExampleConfig)]

/-!
## C7 — preset import validation and sanitization
-/

/-- C7: `importPreset` returns `null` — leaving the user-preset list
unchanged — when the JSON fails to parse, or `name` or `nodeType` is missing,
or `layout` is not an array; and every accepted import carries the freshly
generated id and import-time `createdAt`, has `isBuiltin` forced to `false`
regardless of the payload, and is appended to the user-preset list. -/
theorem importPreset_spec (parsed : Option JsonVal) (now : Int)
    (userPresets : List JsonVal) :
    (parsed = none → importPreset parsed now userPresets = none) ∧
    (∀ v, parsed = some v → objGet v "name" = none →
      importPreset parsed now userPresets = none) ∧
    (∀ v, parsed = some v → objGet v "nodeType" = none →
      importPreset parsed now userPresets = none) ∧
    (∀ v, parsed = some v → arrayGet v "layout" = false →
      importPreset parsed now userPresets = none) ∧
    (∀ v p rest, parsed = some v →
      importPreset parsed now userPresets = some (p, rest) →
      objGet p "id" = some (.str (importedPresetId v now)) ∧
      objGet p "createdAt" = some (.num now) ∧
      objGet p "isBuiltin" = some (.bool false) ∧
      rest = userPresets ++ [p]) := by
  refine ⟨?_, ?_, ?_, ?_, ?_⟩
  · intro h; subst h; rfl
  · intro v hv hname; subst hv
    have ht : truthyGet v "name" = false := by simp [truthyGet, hname]
    simp [importPreset, ht]
  · intro v hv hnt; subst hv
    have ht : truthyGet v "nodeType" = false := by simp [truthyGet, hnt]
    simp [importPreset, ht]
  · intro v hv hlay; subst hv
    simp [importPreset, hlay]
  · intro v p rest hv hsucc; subst hv
    cases hcond : (truthyGet v "name" && truthyGet v "nodeType" && arrayGet v "layout") with
    | false => simp [importPreset, hcond] at hsucc
    | true =>
        simp only [importPreset, hcond, if_true] at hsucc
        have hname : truthyGet v "name" = true := by
          have h' := hcond
          simp only [Bool.and_eq_true] at h'
          exact h'.1.1
        obtain ⟨fs, hfs⟩ : ∃ fs, v = .obj fs := by
          cases v <;> simp_all [truthyGet, objGet]
        subst hfs
        obtain ⟨hp, hrest⟩ : _ ∧ _ := by
          simpa using hsucc
        refine ⟨?_, ?_, ?_, ?_⟩
        · rw [← hp]
          show (setEntry (setEntry (setEntry fs "id" _) "createdAt" _) "isBuiltin" _).lookup "id" = _
          rw [lookup_setEntry_ne _ _ _ _ (by decide),
            lookup_setEntry_ne _ _ _ _ (by decide), lookup_setEntry_self]
        · rw [← hp]
          show (setEntry (setEntry (setEntry fs "id" _) "createdAt" _) "isBuiltin" _).lookup "createdAt" = _
          rw [lookup_setEntry_ne _ _ _ _ (by decide), lookup_setEntry_self]
        · rw [← hp]
          show (setEntry (setEntry (setEntry fs "id" _) "createdAt" _) "isBuiltin" _).lookup "isBuiltin" = _
          rw [lookup_setEntry_self]
        · rw [← hrest, ← hp]

/-- A preset payload with no `layout` field (Scenario D). -/
def importMissingLayoutExample : JsonVal :=
  .obj [("name", .str "x"), ("nodeType", .str "t")]

/-- A well-formed preset payload that claims `isBuiltin: true`. -/
def importAcceptedExample : JsonVal :=
  .obj [("name", .str "x"), ("nodeType", .str "t"), ("layout", .arr []),
        ("isBuiltin", .bool true)]

/-- The preset stored for `importAcceptedExample` at time 5. -/
def importAcceptedResult : JsonVal :=
  .obj [("name", .str "x"), ("nodeType", .str "t"), ("layout", .arr []),
        ("isBuiltin", .bool false), ("id", .str "t-imported-5"),
        ("createdAt", .num 5)]

/-- Witness for C7: the payload missing `layout` is rejected without touching
the list, and the accepted payload gets a fresh id, fresh `createdAt`, and
`isBuiltin` forced back to `false`. -/
theorem importPreset_spec_witness :
    (arrayGet importMissingLayoutExample "layout" = false) ∧
    importPreset (some importMissingLayoutExample) 5 [] = none ∧
    (objGet importAcceptedResult "id" =
        some (.str (importedPresetId importAcceptedExample 5)) ∧
      objGet importAcceptedResult "createdAt" = some (.num 5) ∧
      objGet importAcceptedResult "isBuiltin" = some (.bool false) ∧
      [importAcceptedResult] = ([] : List JsonVal) ++ [importAcceptedResult]) := by
  refine ⟨rfl, ?_, ?_⟩
  · exact (importPreset_spec (some importMissingLayoutExample) 5 []).2.2.2.1
      importMissingLayoutExample rfl rfl
  · exact (importPreset_spec (some importAcceptedExample) 5 []).2.2.2.2
      importAcceptedExample importAcceptedResult [importAcceptedResult] rfl (by decide)

/-!
## C8 — quota eviction of user presets keeps the newest
-/

/-- `kept` is exactly a selection of the `n` most recent elements of
`original` by `createdAt`: it has `min n |original|` elements, is a
sub-multiset of `original`, and every retained preset is at least as recent
as every dropped one. -/
def retainsNewest (n : Nat) (original kept : List LayoutPreset) : Prop :=
  kept.length = min n original.length ∧
  ∃ dropped, original.Perm (kept ++ dropped) ∧
    ∀ a ∈ kept, ∀ b ∈ dropped, b.createdAt ≤ a.createdAt

/-- `cleanupOldPresets` retains exactly the newest `n` presets. -/
theorem cleanupOldPresets_retainsNewest (presets : List LayoutPreset) (n : Nat) :
    retainsNewest n presets (cleanupOldPresets presets n) := by
  unfold cleanupOldPresets retainsNewest
  by_cases hle : presets.length ≤ n
  · rw [if_pos hle]
    exact ⟨(Nat.min_eq_right hle).symm, [], by simp, by simp⟩
  · rw [if_neg hle]
    have hperm : (List.insertionSort newerFirst presets).Perm presets :=
      List.perm_insertionSort _ _
    have hsorted : List.Sorted newerFirst (List.insertionSort newerFirst presets) :=
      List.sorted_insertionSort _ _
    refine ⟨?_, (List.insertionSort newerFirst presets).drop n, ?_, ?_⟩
    · rw [List.length_take, hperm.length_eq]
    · rw [List.take_append_drop]
      exact hperm.symm
    · have hp : List.Pairwise newerFirst
          ((List.insertionSort newerFirst presets).take n ++
            (List.insertionSort newerFirst presets).drop n) := by
        rw [List.take_append_drop]
        exact hsorted
      intro a ha b hb
      exact (List.pairwise_append.mp hp).2.2 a ha b hb

/-- C8: when writing the user presets fails with a quota error, eviction
keeps exactly the most recent presets by `createdAt` — first retrying with
the newest 10, then with the newest 5 — and builtin presets are never
evicted (they are not part of the stored user list and always reappear in
`getAllPresets`). -/
theorem saveUserPresets_quota_eviction (canWrite : List LayoutPreset → Bool)
    (presets : List LayoutPreset) (prev : Option (List LayoutPreset))
    (hfail : canWrite presets = false) :
    (canWrite (cleanupOldPresets presets 10) = true →
      saveUserPresets canWrite presets prev = some (cleanupOldPresets presets 10) ∧
      retainsNewest 10 presets (cleanupOldPresets presets 10)) ∧
    (canWrite (cleanupOldPresets presets 10) = false →
      canWrite (cleanupOldPresets presets 5) = true →
      saveUserPresets canWrite presets prev = some (cleanupOldPresets presets 5) ∧
      retainsNewest 5 presets (cleanupOldPresets presets 5)) ∧
    (∀ stored, saveUserPresets canWrite presets prev = some stored →
      ∀ b ∈ BUILTIN_PRESETS, b ∈ getAllPresets stored none) := by
  refine ⟨?_, ?_, ?_⟩
  · intro h10
    exact ⟨by simp [saveUserPresets, hfail, h10],
      cleanupOldPresets_retainsNewest presets 10⟩
  · intro h10 h5
    exact ⟨by simp [saveUserPresets, hfail, h10, h5],
      cleanupOldPresets_retainsNewest presets 5⟩
  · intro stored _ b hb
    simp only [getAllPresets]
    exact List.mem_append_left _ hb

/-- Twenty-one user presets with distinct creation times 0‥20 (Scenario E:
the 21st save overflows the quota). -/
def presetsExample : List LayoutPreset :=
  (List.range 21).map fun i =>
    { id := toString i, name := "p", nodeType := "t", layout := [],
      createdAt := (i : Int) }

/-- A quota that holds at most 10 presets. -/
def quotaExample : List LayoutPreset → Bool := fun l => decide (l.length ≤ 10)

/-- Witness for C8 (Scenario E): saving 21 presets under the failing quota
stores exactly the 10 most recently created (creation times 20‥11). -/
theorem saveUserPresets_quota_eviction_witness :
    (quotaExample presetsExample = false) ∧
    (quotaExample (cleanupOldPresets presetsExample 10) = true) ∧
    saveUserPresets quotaExample presetsExample none =
      some (cleanupOldPresets presetsExample 10) ∧
    retainsNewest 10 presetsExample (cleanupOldPresets presetsExample 10) ∧
    (cleanupOldPresets presetsExample 10).map LayoutPreset.createdAt =
      [20, 19, 18, 17, 16, 15, 14, 13, 12, 11] := by
  have h := (saveUserPresets_quota_eviction quotaExample presetsExample none
    (by decide)).1 (by decide)
  exact ⟨by decide, by decide, h.1, h.2, by decide⟩

/-- Witness for C5 at a concrete stored config. -/
theorem exportImport_roundtrip_witness :
    (roundtripExampleStore.lookup "node-1" =
      some (encodeNodeConfig roundtripExampleConfig)) ∧
    (importNodeConfig "node-1" (exportNodeConfig "node-1" roundtripExampleStore)
        100 roundtripExampleStore).2.lookup "node-1" =
      some (encodeNodeConfig { roundtripExampleConfig with updatedAt := 100 }) := by
  refine ⟨rfl, ?_⟩
  exact (exportImport_roundtrip "node-1" roundtripExampleConfig 100
    roundtripExampleStore rfl).2.1

end Aestival
